import Mathlib

/-!
# Shallow embedding of the chimp client core

This file embeds, in Lean 4, the client-side core of the repository:

* the type definitions of the world model and the wire protocol
  (`src/unnamed/part_002`, first document: `types/world.ts`);
* the Zustand application store and its actions
  (`src/unnamed/part_000`, first document: `store/appStore.ts`);
* the WebSocket hook: `connect`, `createSession`, the `onclose` /
  `onmessage` handlers, `sendTranscript`
  (`src/client/src/hooks/useWebSocket.ts`);
* the audio capture hook: `stopRecording` and the Float32 → Int16 PCM
  conversion in `processor.onaudioprocess`
  (`src/unnamed/part_002`, third document: `useAudioStream.ts`).

Modelling conventions:

* JavaScript objects become structures; `T | null` becomes `Option T`.
* JS numbers that may be fractional (positions, reputation, confidence,
  audio samples) are modelled as `ℚ`; counters as `Nat`.
* `Math.random()`-based id generation (`generateId`) and `new Date()`
  timestamps are modelled deterministically by a fresh-id counter carried
  in the store state; no claim inspects the generated values.
* React state setters (`set`, `useState` setters) are modelled as pure
  state-transition functions on an explicit state record; each handler is
  a function `State → State`.
* Effects observable outside the store (scheduling a reconnect timer,
  opening a WebSocket, transmitting a frame, releasing an audio resource)
  are recorded in dedicated log fields of the state, so that "exactly one
  timer is scheduled" or "no message is transmitted" become statements
  about those fields.
* A `try { ... } catch { log }` whose catch only logs is modelled by a
  total function returning the unchanged state on the failure branch.
-/

/-! ## Types from `types/world.ts` -/

inductive IntentType
  | buy_item | negotiate | ask_info | give_item | move | interact | greet | unknown
deriving DecidableEq, Repr

inductive Tense
  | present | past | conditional | future
deriving DecidableEq, Repr

inductive Politeness
  | neutral | polite | rude
deriving DecidableEq, Repr

inductive NPCMood
  | friendly | neutral | annoyed | angry
deriving DecidableEq, Repr

structure GrammarFeatures where
  tense : Tense
  politeness : Politeness
  required_constructs_present : List String
deriving DecidableEq, Repr

structure ActionEntities where
  item : Option String
  quantity : Option ℚ
  target : Option String
deriving DecidableEq, Repr

structure ParsedAction where
  intent : IntentType
  entities : ActionEntities
  grammar_features : GrammarFeatures
  confidence : ℚ
  canonical_transcript : String
  feedback_keys : List String
deriving DecidableEq, Repr

structure NPCState where
  id : String
  name : String
  role : String
  position : ℚ × ℚ × ℚ
  mood : NPCMood
  inventory : List (String × ℚ)
  patience : ℚ
  dialogue_history : List String
deriving DecidableEq, Repr

structure PlayerState where
  position : ℚ × ℚ × ℚ
  inventory : List (String × ℚ)
  gold : ℚ
  reputation : ℚ
deriving DecidableEq, Repr

structure MissionState where
  id : String
  title : String
  description : String
  grammar_requirement : String
  success_condition : String
  is_complete : Bool
  attempts : Nat
deriving DecidableEq, Repr

inductive WorldTime
  | morning | afternoon | evening | night
deriving DecidableEq, Repr

structure WorldState where
  timestamp : String
  player : PlayerState
  npcs : List NPCState
  current_mission : Option MissionState
  completed_missions : List String
  world_time : WorldTime
deriving DecidableEq, Repr

structure WorldDiff where
  player_changes : List (String × String)
  npc_changes : List (String × List (String × String))
  mission_changes : List (String × String)
  npc_dialogue : Option String
  world_event : Option String
deriving DecidableEq, Repr

/-- `ServerMessage` from `types/world.ts`. In the source this is a union
discriminated by the string field `type`; an incoming message whose tag is
not one of the recognized ones is represented by the `unrecognized`
constructor carrying its raw tag (the switch in `handleMessage` has no
branch for such a tag). -/
inductive ServerMessage
  | world_state (state : WorldState)
  | transcript (text : String) (is_final : Bool)
  | action_result (parsed_action : ParsedAction) (validation_passed : Bool)
      (feedback : List String) (world_diff : WorldDiff)
  | reasoning (agent : String) (step : String) (details : List (String × String))
  | npc_audio (audio_data : String) (npc_name : String) (dialogue : String) (mood : String)
  | error (message : String) (recoverable : Bool)
  | pong
  | unrecognized (tag : String)
deriving DecidableEq, Repr

/-- The seven `type` tags the `handleMessage` switch has a case for. -/
def recognizedTags : List String :=
  ["world_state", "transcript", "action_result", "reasoning", "npc_audio", "error", "pong"]

/-- `TranscriptEntry` from `types/world.ts` (`id`/`timestamp` modelled as
counter values, see module docstring). -/
structure TranscriptEntry where
  id : Nat
  kind : String
  text : String
  timestamp : Nat
deriving DecidableEq, Repr

/-- `ReasoningStep` from `types/world.ts`. -/
structure ReasoningStep where
  id : Nat
  agent : String
  step : String
  details : List (String × String)
  timestamp : Nat
deriving DecidableEq, Repr

/-! ## The application store (`store/appStore.ts`) -/

/-- The `AppState` record of the Zustand store, plus the deterministic
fresh-id counter standing in for `generateId` / `new Date()`. -/
structure AppState where
  sessionId : Option String
  isConnected : Bool
  worldState : Option WorldState
  mission : Option MissionState
  transcripts : List TranscriptEntry
  reasoningChain : List ReasoningStep
  lastAction : Option ParsedAction
  lastFeedback : List String
  npcDialogue : Option String
  isRecording : Bool
  freshId : Nat
deriving DecidableEq, Repr

/-- The initial store state. -/
def initialAppState : AppState :=
  { sessionId := none
    isConnected := false
    worldState := none
    mission := none
    transcripts := []
    reasoningChain := []
    lastAction := none
    lastFeedback := []
    npcDialogue := none
    isRecording := false
    freshId := 0 }

/-- JS `Array.prototype.slice(-n)`: the last `n` elements (the whole list
when it is shorter than `n`). -/
def sliceLast (n : Nat) (l : List α) : List α :=
  l.drop (l.length - n)

def setSessionId (id : String) (s : AppState) : AppState :=
  { s with sessionId := some id }

def setConnected (connected : Bool) (s : AppState) : AppState :=
  { s with isConnected := connected }

/-- `setWorldState`: replaces `worldState` wholesale and projects
`mission` from `state.current_mission || null`. -/
def setWorldState (state : WorldState) (s : AppState) : AppState :=
  { s with worldState := some state, mission := state.current_mission }

def setMission (mission : MissionState) (s : AppState) : AppState :=
  { s with mission := some mission }

/-- `addTranscript`: `transcripts := [...transcripts.slice(-50), entry]`
(the source comment reads "Keep last 50"). The entry is supplied without
`id`/`timestamp`, which the action fills in. -/
def addTranscript (kind text : String) (s : AppState) : AppState :=
  { s with
    transcripts := sliceLast 50 s.transcripts ++
      [{ id := s.freshId, kind := kind, text := text, timestamp := s.freshId }]
    freshId := s.freshId + 1 }

/-- `addReasoningStep`: `reasoningChain := [...reasoningChain.slice(-20), step]`
(the source comment reads "Keep last 20"). -/
def addReasoningStep (agent step : String) (details : List (String × String))
    (s : AppState) : AppState :=
  { s with
    reasoningChain := sliceLast 20 s.reasoningChain ++
      [{ id := s.freshId, agent := agent, step := step, details := details,
         timestamp := s.freshId }]
    freshId := s.freshId + 1 }

def clearReasoningChain (s : AppState) : AppState :=
  { s with reasoningChain := [] }

def setLastAction (action : ParsedAction) (feedback : List String) (s : AppState) : AppState :=
  { s with lastAction := some action, lastFeedback := feedback }

def setNpcDialogue (dialogue : Option String) (s : AppState) : AppState :=
  { s with npcDialogue := dialogue }

def setRecording (recording : Bool) (s : AppState) : AppState :=
  { s with isRecording := recording }

/-! ## The message dispatcher (`useWebSocket.ts`, `handleMessage`) -/

/-- `handleMessage`: the `switch (message.type)` dispatcher. JS string
truthiness (`if (message.text)`, `if (message.world_diff?.npc_dialogue)`)
is modelled by the non-empty / non-null tests the source performs; the
`npc_audio` branch only decodes and plays audio (a fire-and-forget side
effect outside the store) and the `pong` branch is empty; a tag with no
case falls through the switch unchanged. -/
def handleMessage (message : ServerMessage) (s : AppState) : AppState :=
  match message with
  | .world_state st => setWorldState st s
  | .transcript text _ =>
      if text = "" then s else addTranscript "player" text s
  | .action_result pa _ feedback wd =>
      let s1 := setLastAction pa feedback s
      let s2 := match wd.npc_dialogue with
        | some d => if d = "" then s1 else addTranscript "npc" d (setNpcDialogue (some d) s1)
        | none => s1
      let s3 := match wd.world_event with
        | some ev => if ev = "" then s2 else addTranscript "system" ev s2
        | none => s2
      feedback.foldl (fun st fb => addTranscript "feedback" fb st) s3
  | .reasoning agent step details => addReasoningStep agent step details s
  | .npc_audio _ _ _ _ => s
  | .error msg _ => addTranscript "system" ("Error: " ++ msg) s
  | .pong => s
  | .unrecognized _ => s

/-! ## The WebSocket hook (`useWebSocket.ts`) -/

/-- `WebSocket.readyState` values. -/
inductive WSReadyState
  | connecting | wsOpen | closing | closed
deriving DecidableEq, Repr

/-- The state visible to the `useWebSocket` hook: the store, the socket
ref's ready state (`none` when `wsRef.current` is null), the
`isReconnecting` flag, and logs of the hook's external effects. -/
structure WSClientState where
  app : AppState
  wsReadyState : Option WSReadyState
  isReconnecting : Bool
  pendingReconnects : Nat
  openedSockets : List String
  sentFrames : List (String × Bool)
deriving DecidableEq, Repr

/-- The development-mode endpoint (`import.meta.env.DEV` branch). -/
def WS_URL : String := "ws://localhost:8000/ws"

/-- `createSession`: POSTs `/api/session` and returns `data.session_id`;
on any failure the catch block logs and returns a locally generated
`local-` id. The fetch outcome is passed in as `fetchResult` and the
random suffix as `rand`. -/
def createSession (fetchResult : Option String) (rand : String) : String :=
  match fetchResult with
  | some sid => sid
  | none => "local-" ++ rand

/-- `connect`: early-returns when the socket is already open; otherwise
resolves a session id (creating one when none is held, storing it with
`setSessionId`) and opens a WebSocket on `WS_URL/<sid>`. -/
def connect (fetchResult : Option String) (rand : String) (s : WSClientState) : WSClientState :=
  if s.wsReadyState = some .wsOpen then s
  else
    let sid := match s.app.sessionId with
      | some sid => sid
      | none => createSession fetchResult rand
    let app1 := match s.app.sessionId with
      | some _ => s.app
      | none => setSessionId sid s.app
    { s with
      app := app1
      wsReadyState := some .connecting
      openedSockets := s.openedSockets ++ [WS_URL ++ "/" ++ sid] }

/-- `ws.onopen`: marks connected and clears the reconnecting flag. -/
def ws_onopen (s : WSClientState) : WSClientState :=
  { s with app := setConnected true s.app, isReconnecting := false }

/-- `ws.onclose`: marks disconnected, and unless `isReconnecting` is
already set, sets it and schedules one reconnect timer (3 s). Scheduling
is recorded by incrementing `pendingReconnects`. -/
def ws_onclose (s : WSClientState) : WSClientState :=
  let s1 := { s with app := setConnected false s.app }
  if s1.isReconnecting then s1
  else { s1 with isReconnecting := true, pendingReconnects := s1.pendingReconnects + 1 }

/-- `ws.onmessage`: `JSON.parse` then `handleMessage`, the whole body in a
`try` whose catch only logs. `parsed` is the parse outcome: `none` for an
unparseable payload. -/
def ws_onmessage (parsed : Option ServerMessage) (s : WSClientState) : WSClientState :=
  match parsed with
  | some message => { s with app := handleMessage message s.app }
  | none => s

/-- `sendTranscript`: logs and returns when the socket is not open;
otherwise clears the reasoning chain when `isFinal` and sends the
transcript frame. -/
def sendTranscript (text : String) (isFinal : Bool) (s : WSClientState) : WSClientState :=
  if s.wsReadyState ≠ some .wsOpen then s
  else
    let s1 := if isFinal then { s with app := clearReasoningChain s.app } else s
    { s1 with sentFrames := s1.sentFrames ++ [(text, isFinal)] }

/-! ## The audio capture hook (`useAudioStream.ts`) -/

/-- The refs held by `useAudioStream`, with resources named by opaque ids,
plus logs of the release calls performed (`processor.disconnect()`,
`audioContext.close()`, `track.stop()` on every track of the stream). -/
structure AudioStreamState where
  processorRef : Option Nat
  audioContextRef : Option Nat
  streamRef : Option Nat
  isRecording : Bool
  disconnectedProcessors : List Nat
  closedContexts : List Nat
  stoppedStreams : List Nat
deriving DecidableEq, Repr

/-- `stopRecording`: disconnects and nulls the processor ref if present,
closes and nulls the audio context ref if present, stops the tracks of
and nulls the stream ref if present, then sets `isRecording` false. -/
def stopRecording (s : AudioStreamState) : AudioStreamState :=
  let s1 := match s.processorRef with
    | some p =>
        { s with disconnectedProcessors := s.disconnectedProcessors ++ [p],
                 processorRef := none }
    | none => s
  let s2 := match s1.audioContextRef with
    | some c =>
        { s1 with closedContexts := s1.closedContexts ++ [c],
                  audioContextRef := none }
    | none => s1
  let s3 := match s2.streamRef with
    | some t =>
        { s2 with stoppedStreams := s2.stoppedStreams ++ [t],
                  streamRef := none }
    | none => s2
  { s3 with isRecording := false }

/-! ## Float32 → Int16 PCM conversion (`processor.onaudioprocess`)

Audio samples are modelled as rationals. The multiplications the source
performs are by the integer constants `0x8000` and `0x7FFF` on a clamped
sample; `s * 0x8000` is exact in binary floating point and `s * 0x7FFF`
rounds monotonically within `[0, 0x7FFF]`, so the rational model agrees
with the float computation on the clamping, sign and range behaviour the
claims concern. -/

/-- `Math.max(-1, Math.min(1, x))`. -/
def clampSample (x : ℚ) : ℚ := max (-1) (min 1 x)

/-- `s < 0 ? s * 0x8000 : s * 0x7FFF` where `s` is the clamped sample. -/
def scaleSample (x : ℚ) : ℚ :=
  if clampSample x < 0 then clampSample x * 0x8000 else clampSample x * 0x7FFF

/-- ECMAScript `ToInt16`, first half: truncation toward zero. -/
def truncateTowardZero (q : ℚ) : ℤ := if q < 0 then ⌈q⌉ else ⌊q⌋

/-- ECMAScript `ToInt16`, second half: wrap modulo 2^16 into
`[-32768, 32767]` (this is what assignment into an `Int16Array` does). -/
def toInt16 (i : ℤ) : ℤ := (i + 32768) % 65536 - 32768

/-- The full per-sample conversion `pcmData[i] = ...`. -/
def pcmOfSample (x : ℚ) : ℤ := toInt16 (truncateTowardZero (scaleSample x))

/-! ## Concrete states used by the witnesses -/

/-- A disconnected hook state with no session id held. -/
def wsState0 : WSClientState :=
  { app := initialAppState
    wsReadyState := some .closed
    isReconnecting := false
    pendingReconnects := 0
    openedSockets := []
    sentFrames := [] }

/-! ## Claims -/

set_option maxRecDepth 4000 in
/-- C1: the claim says the transcript log never exceeds 50 entries and the
reasoning log never exceeds 20. The code keeps the last 50 (resp. 20)
entries and then appends one more, so both logs reach 51 (resp. 21)
entries, contradicting the source's own "Keep last 50" / "Keep last 20"
comments: this theorem evaluates the store at the failing input (51
`addTranscript` calls and 21 `addReasoningStep` calls from the initial
state). -/
theorem transcript_cap_off_by_one :
    ((fun s => addTranscript "player" "hello" s)^[51] initialAppState).transcripts.length = 51 ∧
    ((fun s => addReasoningStep "interpreter" "parse" [] s)^[21]
        initialAppState).reasoningChain.length = 21 := by
  constructor <;> decide

/-- C2: a transport close event from a non-reconnecting state schedules
exactly one reconnect timer, and a second close event before the timer
fires schedules no further timer (the `isReconnecting` flag guards the
branch). -/
theorem onclose_single_reconnect (s : WSClientState) (h : s.isReconnecting = false) :
    (ws_onclose s).pendingReconnects = s.pendingReconnects + 1 ∧
    (ws_onclose s).isReconnecting = true ∧
    (ws_onclose (ws_onclose s)).pendingReconnects = s.pendingReconnects + 1 := by
  simp [ws_onclose, setConnected, h]

/-- Witness for C2 at a concrete disconnected state. -/
theorem onclose_single_reconnect_witness :
    (ws_onclose wsState0).pendingReconnects = wsState0.pendingReconnects + 1 ∧
    (ws_onclose wsState0).isReconnecting = true ∧
    (ws_onclose (ws_onclose wsState0)).pendingReconnects = wsState0.pendingReconnects + 1 :=
  onclose_single_reconnect wsState0 rfl

/-- C3: delivering the same `world_state` message twice yields exactly the
state produced by delivering it once (the handler replaces the projection
wholesale), and in particular the `worldState` and `mission` fields agree. -/
theorem world_state_idempotent (st : WorldState) (s : AppState) :
    handleMessage (.world_state st) (handleMessage (.world_state st) s) =
      handleMessage (.world_state st) s ∧
    (handleMessage (.world_state st) s).worldState = some st ∧
    (handleMessage (.world_state st) s).mission = st.current_mission := by
  constructor
  · rfl
  · exact ⟨rfl, rfl⟩

/-- C4: `connect` with no session id held and a failing session-creation
request does not propagate the failure: it stores a locally generated
`local-`-prefixed id and opens the socket on that id. -/
theorem connect_fallback_local (s : WSClientState) (rand : String)
    (hno : s.app.sessionId = none) (hws : s.wsReadyState ≠ some .wsOpen) :
    (connect none rand s).app.sessionId = some ("local-" ++ rand) ∧
    (connect none rand s).openedSockets =
      s.openedSockets ++ [WS_URL ++ "/" ++ ("local-" ++ rand)] := by
  simp [connect, hno, hws, createSession, setSessionId]

/-- Witness for C4 at a concrete fresh state. -/
theorem connect_fallback_local_witness :
    (connect none "abcdefg" wsState0).app.sessionId = some ("local-" ++ "abcdefg") ∧
    (connect none "abcdefg" wsState0).openedSockets =
      wsState0.openedSockets ++ [WS_URL ++ "/" ++ ("local-" ++ "abcdefg")] :=
  connect_fallback_local wsState0 "abcdefg" rfl (by decide)

/-- C5: `sendTranscript` on a channel that is not open transmits nothing,
throws nothing (the function is total) and leaves the whole client state,
view model included, unchanged. -/
theorem sendTranscript_not_open_noop (text : String) (isFinal : Bool) (s : WSClientState)
    (h : s.wsReadyState ≠ some .wsOpen) :
    sendTranscript text isFinal s = s := by
  simp [sendTranscript, h]

/-- Witness for C5 at a concrete closed-channel state. -/
theorem sendTranscript_not_open_noop_witness :
    sendTranscript "three apples please" true wsState0 = wsState0 :=
  sendTranscript_not_open_noop "three apples please" true wsState0 (by decide)

/-- C6: a message whose tag is not one of the seven recognized tags is
dispatched to no handler branch, raises no error (the function is total)
and leaves the projected view model unchanged. -/
theorem handleMessage_unrecognized_noop (tag : String) (s : AppState)
    (_h : tag ∉ recognizedTags) :
    handleMessage (.unrecognized tag) s = s := rfl

/-- Witness for C6 at a concrete unknown tag. -/
theorem handleMessage_unrecognized_noop_witness :
    handleMessage (.unrecognized "future_feature") initialAppState = initialAppState :=
  handleMessage_unrecognized_noop "future_feature" initialAppState (by decide)

/-- C7: an unparseable incoming payload is dropped: the handler leaves the
whole client state unchanged — in particular the connection is not closed
and the view model is untouched. -/
theorem onmessage_unparseable_noop (s : WSClientState) :
    ws_onmessage none s = s := rfl

/-- C8: after `stopRecording`, on every exit path and from any starting
state, the processing-node, audio-context and media-stream refs are all
null, `isRecording` is false, and whichever resources were held have been
released (disconnected / closed / stopped respectively). -/
theorem stopRecording_releases_all (s : AudioStreamState) :
    (stopRecording s).processorRef = none ∧
    (stopRecording s).audioContextRef = none ∧
    (stopRecording s).streamRef = none ∧
    (stopRecording s).isRecording = false ∧
    (stopRecording s).disconnectedProcessors =
      s.disconnectedProcessors ++ s.processorRef.toList ∧
    (stopRecording s).closedContexts = s.closedContexts ++ s.audioContextRef.toList ∧
    (stopRecording s).stoppedStreams = s.stoppedStreams ++ s.streamRef.toList := by
  rcases s with ⟨_ | p, _ | c, _ | t, rec, dp, cc, st⟩ <;> simp [stopRecording]

/-- The clamped sample lies between -1 and 1. -/
theorem clampSample_mem (x : ℚ) : -1 ≤ clampSample x ∧ clampSample x ≤ 1 :=
  ⟨le_max_left _ _, max_le (by norm_num) (min_le_left _ _)⟩

/-- Wrapping modulo 2^16 is the identity on values already in range. -/
theorem toInt16_eq_of_bounds (i : ℤ) (h1 : -32768 ≤ i) (h2 : i ≤ 32767) :
    toInt16 i = i := by
  unfold toInt16
  omega

/-- C9: the per-sample conversion clamps then scales (negatives by 0x8000,
non-negatives by 0x7FFF), every produced sample lies in [-32768, 32767],
the Int16Array wrap never fires (no wraparound), and the endpoints map to
-32768 and 32767. -/
theorem pcm_sample_in_range (x : ℚ) :
    -32768 ≤ pcmOfSample x ∧ pcmOfSample x ≤ 32767 ∧
    pcmOfSample x = truncateTowardZero (scaleSample x) ∧
    pcmOfSample (-1) = -32768 ∧ pcmOfSample 1 = 32767 := by
  obtain ⟨hlo, hhi⟩ := clampSample_mem x
  have hb : -32768 ≤ truncateTowardZero (scaleSample x) ∧
      truncateTowardZero (scaleSample x) ≤ 32767 := by
    rcases lt_or_le (clampSample x) 0 with hneg | hpos
    · have hscale : scaleSample x = clampSample x * 0x8000 := if_pos hneg
      have h1 : (-32768 : ℚ) ≤ scaleSample x := by rw [hscale]; nlinarith
      have h2 : scaleSample x < 0 := by rw [hscale]; nlinarith
      have ht : truncateTowardZero (scaleSample x) = ⌈scaleSample x⌉ := if_pos h2
      rw [ht]
      refine ⟨?_, ?_⟩
      · exact_mod_cast Int.ceil_le_ceil (by exact_mod_cast h1 : ((-32768 : ℤ) : ℚ) ≤ scaleSample x) |>.trans_eq' (Int.ceil_intCast _).symm
      · have := Int.ceil_le.mpr (by exact_mod_cast h2.le : scaleSample x ≤ ((0 : ℤ) : ℚ))
        omega
    · have hscale : scaleSample x = clampSample x * 0x7FFF := if_neg (not_lt.mpr hpos)
      have h1 : (0 : ℚ) ≤ scaleSample x := by rw [hscale]; nlinarith
      have h2 : scaleSample x ≤ 32767 := by rw [hscale]; nlinarith
      have ht : truncateTowardZero (scaleSample x) = ⌊scaleSample x⌋ :=
        if_neg (not_lt.mpr h1)
      rw [ht]
      refine ⟨?_, ?_⟩
      · have := Int.le_floor.mpr (by exact_mod_cast h1 : ((0 : ℤ) : ℚ) ≤ scaleSample x)
        omega
      · have := Int.floor_le_floor (α := ℚ) (by exact_mod_cast h2 : scaleSample x ≤ ((32767 : ℤ) : ℚ))
        have h32 : ⌊((32767 : ℤ) : ℚ)⌋ = 32767 := Int.floor_intCast _
        omega
  have hid : pcmOfSample x = truncateTowardZero (scaleSample x) :=
    toInt16_eq_of_bounds _ hb.1 hb.2
  refine ⟨by rw [hid]; exact hb.1, by rw [hid]; exact hb.2, hid, ?_, ?_⟩
  · have hc : clampSample (-1) = -1 := by
      unfold clampSample; norm_num
    have hs : scaleSample (-1) = -32768 := by
      unfold scaleSample; rw [hc]; norm_num
    have hcast : ((-32768 : ℤ) : ℚ) = (-32768 : ℚ) := by norm_num
    have ht : truncateTowardZero (-32768 : ℚ) = -32768 := by
      unfold truncateTowardZero
      rw [if_pos (by norm_num : (-32768 : ℚ) < 0), ← hcast, Int.ceil_intCast]
    show toInt16 (truncateTowardZero (scaleSample (-1))) = -32768
    rw [hs, ht]
    unfold toInt16
    omega
  · have hc : clampSample 1 = 1 := by
      unfold clampSample; norm_num
    have hs : scaleSample 1 = 32767 := by
      unfold scaleSample; rw [hc]; norm_num
    have hcast : ((32767 : ℤ) : ℚ) = (32767 : ℚ) := by norm_num
    have ht : truncateTowardZero (32767 : ℚ) = 32767 := by
      unfold truncateTowardZero
      rw [if_neg (by norm_num : ¬ (32767 : ℚ) < 0), ← hcast, Int.floor_intCast]
    show toInt16 (truncateTowardZero (scaleSample 1)) = 32767
    rw [hs, ht]
    unfold toInt16
    omega

/-- C10: a `transcript` message whose text is empty (JS falsy) leaves the
whole store, the transcript log in particular, unchanged. -/
theorem empty_transcript_noop (is_final : Bool) (s : AppState) :
    handleMessage (.transcript "" is_final) s = s := rfl
